import Mathlib

/-!
Verification development for the SMART-on-FHIR Express server (src/server.js).

The JavaScript handlers are shallowly embedded as pure Lean functions:
HTTP exchange outcomes (axios resolutions/rejections) are passed in as
explicit arguments, the express session is an explicit record, and each
handler returns its response together with the session bookkeeping it
performed and the number of outbound network calls it issued.
-/

namespace SmartEpic

/-- JS truthiness of an optional string value: undefined (`none`) and the
empty string are falsy, every other string is truthy. -/
def truthy : Option String → Bool
  | none => false
  | some s => !s.isEmpty

/-- Normalises an optional string to `none` when it is JS-falsy, mirroring
how the source chains values with the logical-or operator. -/
def truthyOpt : Option String → Option String
  | none => none
  | some s => if s.isEmpty then none else some s

/-- Models a single element of an OperationOutcome's issue array, keeping the
two fields the server inspects (issue.diagnostics and issue.details.text). -/
structure OOIssue where
  diagnostics : Option String := none
  detailsText : Option String := none
deriving Repr, DecidableEq

/-- Models a FHIR resource as the server inspects it: the discriminating
resourceType, the id, and the issue array (relevant when the resource is an
OperationOutcome). Other payload fields never influence control flow. -/
structure Resource where
  resourceType : String
  id : Option String := none
  issue : Option (List OOIssue) := none
deriving Repr, DecidableEq

/-- A bundle entry: an object with an optional resource field. -/
structure Entry where
  resource : Option Resource := none
deriving Repr, DecidableEq

/-- A FHIR search-set bundle body as the handlers read it: the optional entry
array and the optional total count. -/
structure BundleData where
  entry : Option (List Entry) := none
  total : Option Nat := none
deriving Repr, DecidableEq

/-- Embeds extractOperationOutcomeDiagnostics (server.js:199-212): given the
optional payload, returns the issue diagnostic strings (preferring
issue.diagnostics, falling back to issue.details.text, dropping falsy ones),
or none when the payload is absent, not an OperationOutcome, or yields no
diagnostics. The source's try/catch guards property access that cannot fail
in this typed model. -/
def extractOperationOutcomeDiagnostics : Option Resource → Option (List String)
  | none => none
  | some r =>
    if r.resourceType = "OperationOutcome" then
      let issues := r.issue.getD []
      let diags := issues.filterMap fun i =>
        (truthyOpt i.diagnostics).orElse fun _ => truthyOpt i.detailsText
      if diags.isEmpty then none else some diags
    else none

/-- Case-insensitive character comparison, as the regex i-flag applies it to
the ASCII literal part of the pattern. -/
def charMatchCI (a b : Char) : Bool := a.toLower = b.toLower

/-- Attempts to read the literal (first argument, case-insensitively) at the
head of the text; on success returns the remaining text. -/
def litAfterCI : List Char → List Char → Option (List Char)
  | [], rest => some rest
  | _ :: _, [] => none
  | p :: ps, c :: cs => if charMatchCI p c then litAfterCI ps cs else none

/-- The capture group of the pattern: one or more characters other than a
period, followed by a period. Returns the captured characters. -/
def captureToDot (cs : List Char) : Option (List Char) :=
  let cap := cs.takeWhile fun c => c ≠ '.'
  if cap.isEmpty then none
  else
    match cs.drop cap.length with
    | c :: _ => if c = '.' then some cap else none
    | [] => none

/-- The fixed literal of the not-authorized pattern in server.js:219. -/
def notAuthLit : List Char := "Client not authorized for ".data

/-- Leftmost-match scan of the regex in server.js:219 over the message text:
at each start position try the case-insensitive literal followed by the
capture; return the first capture found. -/
def scanNotAuth : List Char → Option (List Char)
  | [] => none
  | c :: cs =>
    match litAfterCI notAuthLit (c :: cs) with
    | some after =>
      match captureToDot after with
      | some cap => some cap
      | none => scanNotAuth cs
    | none => scanNotAuth cs

/-- Group 1 of msg.match applied to the not-authorized pattern, as a string. -/
def regexNotAuthCapture (msg : String) : Option String :=
  (scanNotAuth msg.data).map fun cap => String.mk cap

/-- JS String.prototype.trim: removes whitespace from both ends. -/
def trimStr (s : String) : String :=
  String.mk (((s.data.dropWhile Char.isWhitespace).reverse.dropWhile Char.isWhitespace).reverse)

/-- JS Set insertion: appends the element unless already present, preserving
first-insertion order as Array.from does. -/
def addToSet (acc : List String) (x : String) : List String :=
  if acc.contains x then acc else acc ++ [x]

/-- Embeds extractNotAuthorizedTargets (server.js:214-223): scans each
diagnostic string with the pattern, trims group 1 and collects the distinct
values in first-seen order; a non-array input yields the empty list. The
source's match-and-group-truthiness guard is always satisfied when a match
exists because the capture group is nonempty by construction. -/
def extractNotAuthorizedTargets : Option (List String) → List String
  | none => []
  | some msgs =>
    msgs.foldl (fun acc msg =>
      match regexNotAuthCapture msg with
      | some cap => addToSet acc (trimStr cap)
      | none => acc) []

/-- Embeds maskClientId (server.js:225-229): falsy input gives null, short
identifiers collapse to a fixed mask, longer ones keep only the first and
last four characters. -/
def maskClientId : Option String → Option String
  | none => none
  | some s =>
    if s.isEmpty then none
    else if s.length ≤ 8 then some "********"
    else some (String.mk (s.data.take 4) ++ "..." ++ String.mk (s.data.drop (s.length - 4)))

/-- Boolean test for one character list starting with another (first argument
is the pattern). -/
def startsWithL : List Char → List Char → Bool
  | [], _ => true
  | _ :: _, [] => false
  | p :: ps, c :: cs => p = c && startsWithL ps cs

/-- Boolean substring test, as JS String.prototype.includes. -/
def hasSubL (pat : List Char) : List Char → Bool
  | [] => pat.isEmpty
  | c :: cs => startsWithL pat (c :: cs) || hasSubL pat cs

/-- JS str.includes(pat) on strings. -/
def includesStr (s pat : String) : Bool := hasSubL pat.data s.data

/-- JS str.startsWith(pat) on strings. -/
def startsWithStr (s pat : String) : Bool := startsWithL pat.data s.data

/-- JS String.prototype.toLowerCase restricted to the ASCII range the header
names use. -/
def lowerStr (s : String) : String := String.mk (s.data.map Char.toLower)

/-- The deny list of pickSafeResponseHeaders (server.js:234). -/
def headerDenyList : List String := ["set-cookie", "cookie", "authorization"]

/-- The allow list of pickSafeResponseHeaders (server.js:235-248). -/
def headerAllowList : List String :=
  ["content-type", "date", "server", "etag", "last-modified", "cache-control",
   "expires", "pragma", "vary", "content-location", "location", "content-encoding"]

/-- The pattern-based acceptance branch of pickSafeResponseHeaders
(server.js:256-262): tracing-style names are kept. -/
def traceHeaderName (lowerKey : String) : Bool :=
  includesStr lowerKey "request" || includesStr lowerKey "trace" ||
  includesStr lowerKey "correlation" || includesStr lowerKey "epic" ||
  startsWithStr lowerKey "x-"

/-- JS object property assignment on an association list keyed by string:
replaces the value in place when the key exists, appends otherwise. -/
def upsert (l : List (String × String)) (k v : String) : List (String × String) :=
  match l with
  | [] => [(k, v)]
  | (k', v') :: rest => if k' = k then (k, v) :: rest else (k', v') :: upsert rest k v

/-- One iteration of the pickSafeResponseHeaders loop (server.js:249-265):
lowercases the key, skips deny-listed names, stores exact allow-list names
and tracing-pattern names under the lowercased key, ignores the rest. -/
def pickHeaderStep (safe : List (String × String)) (kv : String × String) :
    List (String × String) :=
  let lowerKey := lowerStr kv.1
  if headerDenyList.contains lowerKey then safe
  else if headerAllowList.contains lowerKey then upsert safe lowerKey kv.2
  else if traceHeaderName lowerKey then upsert safe lowerKey kv.2
  else safe

/-- Embeds pickSafeResponseHeaders (server.js:231-267): folds the loop body
over the header entries starting from the empty object. A non-object input
yields the empty result. -/
def pickSafeResponseHeaders (headers : Option (List (String × String))) :
    List (String × String) :=
  match headers with
  | none => []
  | some hs => hs.foldl pickHeaderStep []

/-- The per-browser express session as the handlers use it. Absent fields are
undefined in JS and none here. -/
structure SessionData where
  state : Option String := none
  nonce : Option String := none
  codeVerifier : Option String := none
  tokenEndpoint : Option String := none
  accessToken : Option String := none
  refreshToken : Option String := none
  patientId : Option String := none
  fhirBaseUrl : Option String := none
  expiresIn : Option Nat := none
  grantedScope : Option String := none
  demoMode : Bool := false
deriving Repr, DecidableEq

/-- A fresh session with no fields set, as express-session provides after
req.session.destroy() on the next request. -/
def emptySession : SessionData := {}

/-- Embeds the /demo handler's session seeding (server.js:328-334): stores the
synthetic token, patient id and base URL and sets the demo flag; all other
fields are left as they were. -/
def demoHandler (s : SessionData) : SessionData :=
  { s with accessToken := some "demo-token",
           patientId := some "demo-patient-001",
           fhirBaseUrl := some "https://fhir.epic.com (Demo Mode)",
           demoMode := true }

/-- Embeds the /logout handler (server.js:967-970): req.session.destroy()
discards the record, so the next request sees a fresh empty session. -/
def afterLogout (_ : SessionData) : SessionData := emptySession

/-- The query parameters the /callback handler destructures (server.js:387).
A missing parameter is undefined, i.e. none. -/
structure CallbackQuery where
  code : Option String := none
  state : Option String := none
  error : Option String := none
  error_description : Option String := none
deriving Repr, DecidableEq

/-- The observable outcome of the /callback handler up to the outbound token
POST: the 400 authorization-denied body, the 400 CSRF-mismatch body, or the
outbound token-endpoint POST (the only constructor that represents a network
call), carrying the session values it is issued with. -/
inductive CallbackResponse where
  | authDenied (err : String) (desc : Option String)
  | csrfMismatch
  | tokenExchange (endpoint : Option String) (code : Option String) (verifier : Option String)
deriving Repr, DecidableEq

/-- Embeds the /callback handler's control flow before the token exchange
(server.js:385-418): a truthy error parameter returns the 400 denial; then a
state differing from the stored session state returns the 400 CSRF-mismatch
body; only otherwise is the token POST issued, with the session's stored
token endpoint and code verifier. -/
def callbackStep (q : CallbackQuery) (s : SessionData) : CallbackResponse :=
  if truthy q.error then .authDenied (q.error.getD "") q.error_description
  else if q.state ≠ s.state then .csrfMismatch
  else .tokenExchange s.tokenEndpoint q.code s.codeVerifier

/-- True exactly when the callback outcome is the outbound token POST. -/
def reachesTokenExchange : CallbackResponse → Bool
  | .tokenExchange _ _ _ => true
  | _ => false

/-- The SMART configuration document as the discoverer returns it: either the
well-known body verbatim or the pair assembled from the metadata extension;
either endpoint may be absent. -/
structure SmartConfig where
  authorization_endpoint : Option String := none
  token_endpoint : Option String := none
deriving Repr, DecidableEq

/-- A sub-extension of the oauth-uris extension: a url discriminator and an
optional valueUri. -/
structure SubExt where
  url : String
  valueUri : Option String := none
deriving Repr, DecidableEq

/-- An entry of the capability statement's security.extension array. -/
structure OauthExt where
  url : String
  extension : List SubExt := []
deriving Repr, DecidableEq

/-- The security element of a capability statement rest entry. -/
structure SecurityElem where
  extension : Option (List OauthExt) := none
deriving Repr, DecidableEq

/-- One element of the capability statement's rest array. -/
structure RestEntry where
  security : Option SecurityElem := none
deriving Repr, DecidableEq

/-- The capability/metadata document as the discoverer reads it. -/
structure MetadataDoc where
  rest : Option (List RestEntry) := none
deriving Repr, DecidableEq

/-- The outcome of getSmartConfiguration: a returned configuration, the
rejection of the metadata fetch itself (propagated as-is), or the thrown
could-not-find error. -/
inductive DiscoveryOutcome where
  | config (c : SmartConfig)
  | metadataFetchError
  | notFound
deriving Repr, DecidableEq

/-- The extension url the discoverer looks for (server.js:293). -/
def oauthUrisUrl : String :=
  "http://fhir-registry.smarthealthit.org/StructureDefinition/oauth-uris"

/-- The oauth-uris extension lookup chain of server.js:291-294:
rest?.[0]?.security?.extension?.find(url equality). -/
def findOauthExt (md : MetadataDoc) : Option OauthExt :=
  (((md.rest.bind fun l => l.head?).bind fun r => r.security).bind
    fun sec => sec.extension).bind fun exts => exts.find? fun e => e.url = oauthUrisUrl

/-- Embeds getSmartConfiguration (server.js:283-306). The two fetch outcomes
are passed in: a successful well-known fetch returns its body at once and the
metadata document is never consulted; otherwise the metadata document is
fetched (its own failure propagates), the oauth-uris extension is located and
the authorize/token sub-extension valueUris are returned, possibly absent;
with no oauth-uris extension the could-not-find error is thrown. -/
def getSmartConfiguration (wellKnown : Except Unit SmartConfig)
    (metadata : Except Unit MetadataDoc) : DiscoveryOutcome :=
  match wellKnown with
  | .ok cfg => .config cfg
  | .error _ =>
    match metadata with
    | .error _ => .metadataFetchError
    | .ok md =>
      match findOauthExt md with
      | some oauthExtension =>
        let authorize :=
          (oauthExtension.extension.find? fun e => e.url = "authorize").bind fun e => e.valueUri
        let token :=
          (oauthExtension.extension.find? fun e => e.url = "token").bind fun e => e.valueUri
        .config { authorization_endpoint := authorize, token_endpoint := token }
      | none => .notFound

/-- JS numeric logical-or with a default: 0 and undefined fall through to the
default, as in error.response?.status || 500. -/
def orFalsyNat (o : Option Nat) (d : Nat) : Nat :=
  match o with
  | some n => if n = 0 then d else n
  | none => d

/-- JS numeric logical-or with null: 0 and undefined give null, as in
catError?.response?.status || null. -/
def orFalsyNatOpt (o : Option Nat) : Option Nat :=
  match o with
  | some n => if n = 0 then none else some n
  | none => none

/-- The entry filter e.resource?.resourceType === t used by the handlers. -/
def resTypeIs (t : String) (e : Entry) : Bool :=
  match e.resource with
  | some r => r.resourceType = t
  | none => false

/-- An axios rejection as the handlers read it: the optional response status,
headers and body (error.response may be absent on a network-level failure). -/
structure UpstreamError where
  status : Option Nat := none
  headers : Option (List (String × String)) := none
  data : Option Resource := none
deriving Repr, DecidableEq

/-- The outcome of one outbound FHIR query: a resolution carrying the status,
headers and bundle body, or a rejection. -/
inductive FetchOutcome where
  | ok (status : Nat) (headers : List (String × String)) (data : BundleData)
  | err (e : UpstreamError)
deriving Repr, DecidableEq

/-- One element of the categoryErrors array the observations handler builds
(server.js:658-663 and 679-683). -/
structure CategoryError where
  category : String
  status : Option Nat
  diagnostics : Option (List String)
deriving Repr, DecidableEq

/-- The record stored at session.lastEpicErrors.observations
(server.js:705-711). -/
structure ObsErrors where
  attemptedCategories : List String
  categoryErrors : List CategoryError
deriving Repr, DecidableEq

/-- The record stored at session.lastEpicErrors.medications on a failed fetch
(server.js:946-952). -/
structure MedsError where
  errorStatus : Option Nat
  diagnostics : Option (List String)
deriving Repr, DecidableEq

/-- DEMO_DATA.patient reduced to the fields the control flow can observe; the
remaining demographic fields are fixed constants never inspected. -/
def demoPatient : Resource := { resourceType := "Patient", id := some "demo-patient-001" }

/-- DEMO_DATA.observations: a bundle of four Observation entries. -/
def demoObservations : BundleData :=
  { entry := some [
      { resource := some { resourceType := "Observation", id := some "obs-1" } },
      { resource := some { resourceType := "Observation", id := some "obs-2" } },
      { resource := some { resourceType := "Observation", id := some "obs-3" } },
      { resource := some { resourceType := "Observation", id := some "obs-4" } }] }

/-- DEMO_DATA.conditions: a bundle of three Condition entries. -/
def demoConditions : BundleData :=
  { entry := some [
      { resource := some { resourceType := "Condition", id := some "cond-1" } },
      { resource := some { resourceType := "Condition", id := some "cond-2" } },
      { resource := some { resourceType := "Condition", id := some "cond-3" } }] }

/-- DEMO_DATA.medications: a bundle of three MedicationRequest entries. -/
def demoMedications : BundleData :=
  { entry := some [
      { resource := some { resourceType := "MedicationRequest", id := some "med-1" } },
      { resource := some { resourceType := "MedicationRequest", id := some "med-2" } },
      { resource := some { resourceType := "MedicationRequest", id := some "med-3" } }] }

/-- Array.prototype.join with a comma separator. -/
def joinComma (l : List String) : String := String.intercalate ", " l

/-- JS template-literal interpolation of a possibly-null string: null prints
as the text null. -/
def nullStr (o : Option String) : String := o.getD "null"

/-- The /api/patient response: the 401 body, the patient resource JSON (demo
or live), or the error JSON of the catch block. -/
inductive PatientResp where
  | notAuthenticated
  | resourceJson (data : Resource)
  | failureJson
deriving Repr, DecidableEq

/-- Result of the /api/patient handler: response, HTTP status, and the number
of outbound network calls issued. -/
structure PatientOut where
  resp : PatientResp
  status : Nat
  calls : Nat
deriving Repr, DecidableEq

/-- Embeds the /api/patient handler (server.js:578-608): 401 without a token,
demo data with no network call in demo mode, otherwise one upstream GET whose
resolution is returned as-is with 200 and whose rejection is answered with
error.response?.status || 500 and an error body. -/
def patientHandler (s : SessionData) (up : Except UpstreamError Resource) : PatientOut :=
  if !truthy s.accessToken then ⟨.notAuthenticated, 401, 0⟩
  else if s.demoMode then ⟨.resourceJson demoPatient, 200, 0⟩
  else
    match up with
    | .ok r => ⟨.resourceJson r, 200, 1⟩
    | .error e => ⟨.failureJson, orFalsyNat e.status 500, 1⟩

/-- The /api/conditions response: 401 body, demo bundle, the filtered live
bundle, or the error JSON of the catch block. -/
inductive CondResp where
  | notAuthenticated
  | demo (data : BundleData)
  | bundle (entry : List Entry) (total : Nat)
  | failureJson
deriving Repr, DecidableEq

/-- Result of the /api/conditions handler. -/
structure CondOut where
  resp : CondResp
  status : Nat
  calls : Nat
deriving Repr, DecidableEq

/-- Embeds the /api/conditions handler (server.js:833-875): 401 without a
token, demo data in demo mode, otherwise one upstream GET; on resolution the
entries are filtered to real Condition resources and returned with 200 and
total set to their count; on rejection the response is the error JSON with
status error.response?.status || 500. -/
def conditionsHandler (s : SessionData) (up : Except UpstreamError BundleData) : CondOut :=
  if !truthy s.accessToken then ⟨.notAuthenticated, 401, 0⟩
  else if s.demoMode then ⟨.demo demoConditions, 200, 0⟩
  else
    match up with
    | .ok data =>
      let entries := data.entry.getD []
      let realConditions := entries.filter fun e => resTypeIs "Condition" e
      ⟨.bundle realConditions realConditions.length, 200, 1⟩
    | .error e => ⟨.failureJson, orFalsyNat e.status 500, 1⟩

/-- The /api/medications response: 401 body, demo bundle, or a searchset
bundle (entry, total, optional advisory note) — the catch path also answers
with such a bundle, never an error status. -/
inductive MedsResp where
  | notAuthenticated
  | demo (data : BundleData)
  | bundle (entry : List Entry) (total : Nat) (note : Option String)
deriving Repr, DecidableEq

/-- Result of the /api/medications handler: response, HTTP status, the value
written to session.lastEpicErrors.medications (outer none when the handler
returned before that write; some none models the explicit null reset), and
the outbound call count. -/
structure MedsOut where
  resp : MedsResp
  status : Nat
  written : Option (Option MedsError)
  calls : Nat
deriving Repr, DecidableEq

/-- The advisory note of the medications catch path (server.js:959-961):
the targeted not-authorized message when the extracted diagnostics name
denied targets, the generic hint otherwise. -/
def medsFailNote (e : UpstreamError) : String :=
  let missingTargets :=
    extractNotAuthorizedTargets (some ((extractOperationOutcomeDiagnostics e.data).getD []))
  if !missingTargets.isEmpty then
    "Medications not available. Epic app is not authorized for: " ++
      joinComma missingTargets ++
      ". Enable those APIs in the Epic developer portal, then re-launch to get a fresh token."
  else
    "Medications not available. Check /api/debug/epic for the exact Epic denial message, then enable the matching MedicationRequest APIs in your Epic app registration."

/-- Embeds the /api/medications handler (server.js:878-964): 401 without a
token, demo data in demo mode, otherwise one upstream GET; on resolution the
entries are filtered to real MedicationRequest resources and returned with
200, resetting the session's medications error to null; on rejection an
empty bundle with an advisory note is returned, still with 200, and the
extracted diagnostics are stored on the session. -/
def medicationsHandler (s : SessionData) (up : Except UpstreamError BundleData) : MedsOut :=
  if !truthy s.accessToken then ⟨.notAuthenticated, 401, none, 0⟩
  else if s.demoMode then ⟨.demo demoMedications, 200, none, 0⟩
  else
    match up with
    | .ok data =>
      let entries := data.entry.getD []
      let realMedications := entries.filter fun e => resTypeIs "MedicationRequest" e
      ⟨.bundle realMedications realMedications.length none, 200, some none, 1⟩
    | .error e =>
      ⟨.bundle [] 0 (some (medsFailNote e)), 200,
        some (some { errorStatus := orFalsyNatOpt e.status,
                     diagnostics := extractOperationOutcomeDiagnostics e.data }), 1⟩

/-- One iteration of the observations category loop (server.js:631-702),
threading the accumulated observations and categoryErrors: a resolution with
an entry array contributes its Observation entries and, when present, an
embedded-OperationOutcome warning record with status 200; a rejection
contributes a categoryErrors record with the extracted status and
diagnostics. -/
def obsCategoryStep (acc : List Entry × List CategoryError) (category : String)
    (out : FetchOutcome) : List Entry × List CategoryError :=
  match out with
  | .ok _ _ data =>
    match data.entry with
    | some entries =>
      let realObservations := entries.filter fun e => resTypeIs "Observation" e
      let outcomeWarnings := (entries.filter fun e => resTypeIs "OperationOutcome" e).flatMap
        fun e => (extractOperationOutcomeDiagnostics e.resource).getD []
      let errs :=
        if outcomeWarnings.isEmpty then acc.2
        else acc.2 ++ [{ category := category, status := some 200,
                         diagnostics := some outcomeWarnings }]
      (acc.1 ++ realObservations, errs)
    | none => acc
  | .err e =>
    (acc.1, acc.2 ++ [{ category := category, status := orFalsyNatOpt e.status,
                        diagnostics := extractOperationOutcomeDiagnostics e.data }])

/-- The advisory note computation of the observations handler
(server.js:714-733): only an empty aggregate yields a note, preferring the
targeted not-authorized message, then the blocked-sub-resources message when
a denied-looking category error exists, then the generic permissions hint. -/
def obsNote (clientId : Option String) (observations : List Entry)
    (categoryErrors : List CategoryError) : Option String :=
  if observations.isEmpty then
    let allDiagnostics := categoryErrors.flatMap fun e => e.diagnostics.getD []
    let missingTargets := extractNotAuthorizedTargets (some allDiagnostics)
    if !missingTargets.isEmpty then
      some ("No observations available. Epic app is not authorized for: " ++
        joinComma missingTargets ++
        ". Go to https://fhir.epic.com/Developer/Apps, edit your app (client ID: " ++
        nullStr (maskClientId clientId) ++
        "), enable these APIs under \"Application APIs\", save, then re-launch here.")
    else
      let denied := (categoryErrors.filter fun e =>
          e.status = some 401 || e.status = some 403 ||
          e.status = some 400 || e.status = some 200).map fun e =>
        match truthyOpt (e.diagnostics.bind fun l => l.head?) with
        | some firstDiag => e.category ++ ": " ++ firstDiag
        | none => e.category ++ ": not authorized"
      if !denied.isEmpty then
        some ("No observations available. Epic is blocking specific sub-resources even though you have patient/Observation.read scope. Enable \"Observation - Labs\" and \"Observation - Vital Signs\" APIs in your Epic app registration at https://fhir.epic.com/Developer/Apps (client ID: " ++
          nullStr (maskClientId clientId) ++ "), save, then re-launch.")
      else
        some "No observations available. Your Epic app may need additional API permissions enabled."
  else none

/-- The /api/observations response: 401 body, demo bundle, or the aggregated
searchset bundle with entry, total and the optional note. -/
inductive ObsResp where
  | notAuthenticated
  | demo (data : BundleData)
  | bundle (entry : List Entry) (total : Nat) (note : Option String)
deriving Repr, DecidableEq

/-- Result of the /api/observations handler: response, HTTP status, the
record written to session.lastEpicErrors.observations (none when the handler
returned before the write), and the outbound call count. -/
structure ObsOut where
  resp : ObsResp
  status : Nat
  written : Option ObsErrors
  calls : Nat
deriving Repr, DecidableEq

/-- Embeds the /api/observations handler (server.js:611-760): 401 without a
token, demo data with no network call in demo mode; otherwise one query per
configured category, each resolved or rejected independently by the fetch
environment, accumulating entries and categoryErrors; the aggregate is
always answered with 200 as a searchset bundle whose total is the entry
count, with the advisory note when the aggregate is empty, and the attempted
categories and categoryErrors are written to the session. (The lastEpicTrace
bookkeeping, a wall-clock-stamped echo of each request, is elided: no claim
and no control flow reads it back.) -/
def obsHandler (s : SessionData) (clientId : Option String)
    (categories : List String) (fetch : String → FetchOutcome) : ObsOut :=
  if !truthy s.accessToken then ⟨.notAuthenticated, 401, none, 0⟩
  else if s.demoMode then ⟨.demo demoObservations, 200, none, 0⟩
  else
    let looped := categories.foldl (fun acc c => obsCategoryStep acc c (fetch c)) ([], [])
    let observations := looped.1
    let categoryErrors := looped.2
    let note := obsNote clientId observations categoryErrors
    ⟨.bundle observations observations.length note, 200,
      some { attemptedCategories := categories, categoryErrors := categoryErrors },
      categories.length⟩

/-- The /api/session response (server.js:453-465): the 401 body or the
session info JSON, with demoMode defaulted to false and grantedScope to
null via logical-or. -/
inductive SessionResp where
  | notAuthenticated
  | info (patientId : Option String) (fhirBaseUrl : Option String)
         (expiresIn : Option Nat) (demoMode : Bool) (grantedScope : Option String)
deriving Repr, DecidableEq

/-- Embeds the /api/session handler, returning the response and HTTP status. -/
def apiSessionHandler (s : SessionData) : SessionResp × Nat :=
  if !truthy s.accessToken then (.notAuthenticated, 401)
  else (.info s.patientId s.fhirBaseUrl s.expiresIn s.demoMode (truthyOpt s.grantedScope), 200)

/-! Reference model of the two library primitives generateCodeChallenge
composes (server.js:191-193): Node's SHA-256 digest and its unpadded
URL-safe base64 encoding. Bytes are Nats below 256, words Nats below 2^32. -/

/-- Word addition modulo 2^32. -/
def add32 (a b : Nat) : Nat := (a + b) % 4294967296

/-- Right rotation of a 32-bit word. -/
def rotr32 (n x : Nat) : Nat := ((x >>> n) ||| (x <<< (32 - n))) % 4294967296

/-- The sigma-0 message-schedule function of SHA-256. -/
def ssig0 (x : Nat) : Nat := (rotr32 7 x) ^^^ (rotr32 18 x) ^^^ (x >>> 3)

/-- The sigma-1 message-schedule function of SHA-256. -/
def ssig1 (x : Nat) : Nat := (rotr32 17 x) ^^^ (rotr32 19 x) ^^^ (x >>> 10)

/-- The big-sigma-0 round function of SHA-256. -/
def bsig0 (x : Nat) : Nat := (rotr32 2 x) ^^^ (rotr32 13 x) ^^^ (rotr32 22 x)

/-- The big-sigma-1 round function of SHA-256. -/
def bsig1 (x : Nat) : Nat := (rotr32 6 x) ^^^ (rotr32 11 x) ^^^ (rotr32 25 x)

/-- The choose function of SHA-256; complement taken within 32 bits. -/
def chFn (x y z : Nat) : Nat := (x &&& y) ^^^ ((4294967295 ^^^ x) &&& z)

/-- The majority function of SHA-256. -/
def majFn (x y z : Nat) : Nat := (x &&& y) ^^^ (x &&& z) ^^^ (y &&& z)

/-- The 64 SHA-256 round constants. -/
def sha256K : List Nat :=
  [1116352408, 1899447441, 3049323471, 3921009573, 961987163,
   1508970993, 2453635748, 2870763221, 3624381080, 310598401,
   607225278, 1426881987, 1925078388, 2162078206, 2614888103,
   3248222580, 3835390401, 4022224774, 264347078, 604807628,
   770255983, 1249150122, 1555081692, 1996064986, 2554220882,
   2821834349, 2952996808, 3210313671, 3336571891, 3584528711,
   113926993, 338241895, 666307205, 773529912, 1294757372,
   1396182291, 1695183700, 1986661051, 2177026350, 2456956037,
   2730485921, 2820302411, 3259730800, 3345764771, 3516065817,
   3600352804, 4094571909, 275423344, 430227734, 506948616,
   659060556, 883997877, 958139571, 1322822218, 1537002063,
   1747873779, 1955562222, 2024104815, 2227730452, 2361852424,
   2428436474, 2756734187, 3204031479, 3329325298]

/-- The initial SHA-256 hash state. -/
def sha256InitH : List Nat :=
  [1779033703, 3144134277, 1013904242, 2773480762,
   1359893119, 2600822924, 528734635, 1541459225]

/-- Big-endian 8-byte encoding of the bit length. -/
def lenBytes64 (n : Nat) : List Nat :=
  [(n >>> 56) % 256, (n >>> 48) % 256, (n >>> 40) % 256, (n >>> 32) % 256,
   (n >>> 24) % 256, (n >>> 16) % 256, (n >>> 8) % 256, n % 256]

/-- SHA-256 padding: a one bit, zeros to 56 mod 64 bytes, then the bit
length. -/
def padMessage (msg : List Nat) : List Nat :=
  msg ++ [128] ++ List.replicate ((119 - msg.length % 64) % 64) 0 ++ lenBytes64 (msg.length * 8)

/-- Groups of four bytes into big-endian 32-bit words. -/
def bytesToWords : List Nat → List Nat
  | a :: b :: c :: d :: rest => (((a * 256 + b) * 256 + c) * 256 + d) :: bytesToWords rest
  | _ => []

/-- Splits a byte list into 64-byte blocks; the fuel argument bounds the
number of blocks and is structurally consumed (the padded length over 64
always fits the fuel the wrapper supplies). -/
def toBlocksFuel : Nat → List Nat → List (List Nat)
  | 0, _ => []
  | _, [] => []
  | fuel + 1, x :: xs => ((x :: xs).take 64) :: toBlocksFuel fuel ((x :: xs).drop 64)

/-- Splits the padded message into 64-byte blocks. -/
def toBlocks (l : List Nat) : List (List Nat) := toBlocksFuel l.length l

/-- Extends the 16 block words with the given number of schedule words. -/
def extendSchedule : Nat → Array Nat → Array Nat
  | 0, w => w
  | n + 1, w =>
    let i := w.size
    let wi := add32 (add32 (ssig1 (w.getD (i - 2) 0)) (w.getD (i - 7) 0))
                    (add32 (ssig0 (w.getD (i - 15) 0)) (w.getD (i - 16) 0))
    extendSchedule n (w.push wi)

/-- The 64-word message schedule of one block. -/
def schedule (block : List Nat) : List Nat :=
  (extendSchedule 48 (bytesToWords block).toArray).toList

/-- One compression round, acting on the eight-word working state. -/
def roundStep (st : List Nat) (kw : Nat × Nat) : List Nat :=
  match st with
  | [a, b, c, d, e, f, g, h] =>
    let t1 := add32 h (add32 (bsig1 e) (add32 (chFn e f g) (add32 kw.1 kw.2)))
    let t2 := add32 (bsig0 a) (majFn a b c)
    [add32 t1 t2, a, b, c, add32 d t1, e, f, g]
  | other => other

/-- Compression of one block into the running hash state. -/
def compressBlock (h : List Nat) (block : List Nat) : List Nat :=
  let st := (sha256K.zip (schedule block)).foldl roundStep h
  (h.zip st).map fun p => add32 p.1 p.2

/-- Big-endian bytes of one 32-bit word. -/
def wordBytes (w : Nat) : List Nat :=
  [(w >>> 24) % 256, (w >>> 16) % 256, (w >>> 8) % 256, w % 256]

/-- SHA-256 of a byte sequence, as a 32-byte sequence. -/
def sha256 (msg : List Nat) : List Nat :=
  (((toBlocks (padMessage msg)).foldl compressBlock sha256InitH).map wordBytes).flatten

/-- UTF-8 bytes of one character, as Node encodes string input to update(). -/
def utf8Char (c : Char) : List Nat :=
  let n := c.toNat
  if n < 128 then [n]
  else if n < 2048 then [192 + n / 64, 128 + n % 64]
  else if n < 65536 then [224 + n / 4096, 128 + (n / 64) % 64, 128 + n % 64]
  else [240 + n / 262144, 128 + (n / 4096) % 64, 128 + (n / 64) % 64, 128 + n % 64]

/-- UTF-8 encoding of a string. -/
def utf8Encode (s : String) : List Nat := (s.data.map utf8Char).flatten

/-- The URL-safe base64 alphabet. -/
def b64Alphabet : List Char :=
  "ABCDEFGHIJKLMNOPQRSTUVWXYZabcdefghijklmnopqrstuvwxyz0123456789-_".data

/-- The URL-safe base64 digit for a six-bit value. -/
def b64Char (n : Nat) : Char := b64Alphabet.getD n 'A'

/-- Node's base64url encoding: three bytes to four digits, a trailing one or
two bytes to two or three digits, and no padding characters. -/
def base64urlEncode : List Nat → List Char
  | [] => []
  | [a] => [b64Char (a / 4), b64Char (a % 4 * 16)]
  | [a, b] => [b64Char (a / 4), b64Char (a % 4 * 16 + b / 16), b64Char (b % 16 * 4)]
  | a :: b :: c :: rest =>
    b64Char (a / 4) :: b64Char (a % 4 * 16 + b / 16) :: b64Char (b % 16 * 4 + c / 64) ::
      b64Char (c % 64) :: base64urlEncode rest

/-- Embeds generateCodeChallenge (server.js:191-193): the SHA-256 digest of
the UTF-8 verifier bytes, rendered in unpadded URL-safe base64. -/
def generateCodeChallenge (verifier : String) : String :=
  String.mk (base64urlEncode (sha256 (utf8Encode verifier)))

end SmartEpic

open SmartEpic

/-- The header predicate every stored entry satisfies: accepted by the allow
branches and not deny-listed. -/
def safeHeaderKey (k : String) : Prop :=
  (headerAllowList.contains k = true ∨ traceHeaderName k = true) ∧
    headerDenyList.contains k = false

/-- An oauth-uris extension carrying only an authorize sub-extension. -/
def c3OauthExtAuthorizeOnly : OauthExt :=
  { url := oauthUrisUrl,
    extension := [{ url := "authorize", valueUri := some "https://auth.example" }] }

/-- A security element holding only the authorize-only oauth-uris extension. -/
def c3SecurityElem : SecurityElem := { extension := some [c3OauthExtAuthorizeOnly] }

/-- A metadata document whose oauth-uris extension yields an authorization
endpoint but no token endpoint. -/
def c3AuthorizeOnlyMetadata : MetadataDoc :=
  { rest := some [{ security := some c3SecurityElem }] }

/-- Grounding of the digest model: the NIST vector for the SHA-256 of the
empty message. -/
theorem sha256_empty_message_vector :
    sha256 [] =
      [0xe3, 0xb0, 0xc4, 0x42, 0x98, 0xfc, 0x1c, 0x14, 0x9a, 0xfb, 0xf4, 0xc8,
       0x99, 0x6f, 0xb9, 0x24, 0x27, 0xae, 0x41, 0xe4, 0x64, 0x9b, 0x93, 0x4c,
       0xa4, 0x95, 0x99, 0x1b, 0x78, 0x52, 0xb8, 0x55] := by decide

/-- Grounding of the challenge model: the PKCE S256 example of RFC 7636
appendix B. -/
theorem pkce_rfc7636_vector :
    generateCodeChallenge "dBjftJeZ4CVP-mB92K27uhbUJU1p1r_wW1gFWFOEjXk" =
      "E9Melhoa2OwvFrEMTJguCHaoeK1t8URWbuGJSstw-cM" := by decide

/-- Membership in an upsert result comes from the inserted pair or the old
list. -/
theorem mem_upsert {l : List (String × String)} {k v : String} {p : String × String}
    (h : p ∈ upsert l k v) : p = (k, v) ∨ p ∈ l := by
  induction l with
  | nil => simpa [upsert] using h
  | cons hd tl ih =>
    rcases hd with ⟨k', v'⟩
    by_cases hk : k' = k
    · simp only [upsert, if_pos hk, List.mem_cons] at h
      rcases h with h | h
      · exact Or.inl h
      · exact Or.inr (List.mem_cons_of_mem _ h)
    · simp only [upsert, if_neg hk, List.mem_cons] at h
      rcases h with h | h
      · exact Or.inr (by simp [h])
      · rcases ih h with h' | h'
        · exact Or.inl h'
        · exact Or.inr (List.mem_cons_of_mem _ h')

/-- One header-loop iteration only adds keys satisfying the safe predicate. -/
theorem pickHeaderStep_inv {acc : List (String × String)} {kv p : String × String}
    (hacc : ∀ q ∈ acc, safeHeaderKey q.1) (hp : p ∈ pickHeaderStep acc kv) :
    safeHeaderKey p.1 := by
  simp only [pickHeaderStep] at hp
  split at hp
  · exact hacc p hp
  · rename_i hdeny
    split at hp
    · rename_i hallow
      rcases mem_upsert hp with h | h
      · rw [h]
        exact ⟨Or.inl hallow, by simpa using hdeny⟩
      · exact hacc p h
    · rename_i hallow
      split at hp
      · rename_i htrace
        rcases mem_upsert hp with h | h
        · rw [h]
          exact ⟨Or.inr htrace, by simpa using hdeny⟩
        · exact hacc p h
      · exact hacc p hp

/-- The header fold preserves the safe predicate for every stored entry. -/
theorem pickHeaderFold_inv (hs : List (String × String)) :
    ∀ (acc : List (String × String)), (∀ q ∈ acc, safeHeaderKey q.1) →
      ∀ p ∈ hs.foldl pickHeaderStep acc, safeHeaderKey p.1 := by
  induction hs with
  | nil => intro acc hacc p hp; exact hacc p (by simpa using hp)
  | cons hd tl ih =>
    intro acc hacc p hp
    exact ih (pickHeaderStep acc hd) (fun q hq => pickHeaderStep_inv hacc hq) p (by simpa using hp)

/-- A resource entry of one type is not an entry of a different type. -/
theorem resTypeIs_false_of_other {t t' : String} {e : Entry}
    (h : resTypeIs t e = true) (hne : t' ≠ t) : resTypeIs t' e = false := by
  unfold resTypeIs at h ⊢
  cases hr : e.resource with
  | none => rfl
  | some r =>
    rw [hr] at h
    simp only [decide_eq_true_eq] at h
    simp only [decide_eq_false_iff_not, h]
    exact fun hh => hne hh.symm

/-- Folding the target-collection step over messages none of which match the
pattern leaves the accumulator unchanged. -/
theorem extractTargets_fold_nil (msgs : List String)
    (h : ∀ m ∈ msgs, regexNotAuthCapture m = none) :
    ∀ acc : List String,
      msgs.foldl (fun acc msg =>
        match regexNotAuthCapture msg with
        | some cap => addToSet acc (trimStr cap)
        | none => acc) acc = acc := by
  induction msgs with
  | nil => intro acc; rfl
  | cons hd tl ih =>
    intro acc
    have hhd : regexNotAuthCapture hd = none := h hd (by simp)
    simp only [List.foldl_cons, hhd]
    exact ih (fun m hm => h m (by simp [hm])) acc

/-- Every six-bit index maps into the URL-safe alphabet; out-of-range
indices hit the default character, itself a member. -/
theorem b64Char_mem (n : Nat) : b64Char n ∈ b64Alphabet := by
  by_cases h : n < 64
  · have hall : ∀ m, m < 64 → b64Char m ∈ b64Alphabet := by decide
    exact hall n h
  · have hlen : b64Alphabet.length ≤ n := by
      have : b64Alphabet.length = 64 := by decide
      omega
    rw [b64Char, List.getD_eq_default _ _ hlen]
    decide

/-- Every character the base64url encoder emits is an alphabet member. -/
theorem base64urlEncode_mem : ∀ (bs : List Nat), ∀ c ∈ base64urlEncode bs, c ∈ b64Alphabet
  | [] => by simp [base64urlEncode]
  | [a] => by
    intro c hc
    simp only [base64urlEncode, List.mem_cons, List.not_mem_nil, or_false] at hc
    rcases hc with h | h <;> (rw [h]; exact b64Char_mem _)
  | [a, b] => by
    intro c hc
    simp only [base64urlEncode, List.mem_cons, List.not_mem_nil, or_false] at hc
    rcases hc with h | h | h <;> (rw [h]; exact b64Char_mem _)
  | a :: b :: c' :: rest => by
    intro c hc
    simp only [base64urlEncode, List.mem_cons] at hc
    rcases hc with h | h | h | h | h
    · rw [h]; exact b64Char_mem _
    · rw [h]; exact b64Char_mem _
    · rw [h]; exact b64Char_mem _
    · rw [h]; exact b64Char_mem _
    · exact base64urlEncode_mem rest c h

/-- C1 counterexample: a callback whose query carries an authorization-server
error parameter together with a state differing from the stored session state
is answered with the authorization-denied body, not the CSRF-mismatch body,
so the claim's universal "responds with the CSRF-mismatch error" fails. -/
theorem C1_counterexample :
    callbackStep
      { code := some "abc", state := some "x", error := some "access_denied",
        error_description := some "user declined" }
      { emptySession with state := some "y" } ≠ CallbackResponse.csrfMismatch ∧
    ({ code := some "abc", state := some "x", error := some "access_denied",
       error_description := some "user declined" } : CallbackQuery).state ≠
      ({ emptySession with state := some "y" } : SessionData).state := by decide

/-- C1 amended: on a callback without a truthy error parameter, a returned
state differing in any way from the stored session state is answered with
the CSRF-mismatch error, and the outcome carrying the outbound token POST is
never produced; unconditionally, the token POST is reached only when the
returned state equals the stored state (a callback carrying an error
parameter short-circuits to the authorization-denied response, also before
any network call). -/
theorem C1_amended (q : CallbackQuery) (s : SessionData) :
    (truthy q.error = false → q.state ≠ s.state →
      callbackStep q s = CallbackResponse.csrfMismatch) ∧
    (reachesTokenExchange (callbackStep q s) = true → q.state = s.state) := by
  constructor
  · intro he hne
    simp [callbackStep, he, hne]
  · intro hr
    by_cases he : truthy q.error
    · simp [callbackStep, he, reachesTokenExchange] at hr
    · by_cases hst : q.state = s.state
      · exact hst
      · simp [callbackStep, he, hst, reachesTokenExchange] at hr

/-- C1 amended witness: the amended theorem applied at a concrete mismatching
callback. -/
theorem C1_amended_witness :
    callbackStep { code := some "abc", state := some "x" }
      { emptySession with state := some "y" } = CallbackResponse.csrfMismatch :=
  (C1_amended { code := some "abc", state := some "x" }
    { emptySession with state := some "y" }).1 (by decide) (by decide)

/-- C3 counterexample: with the well-known fetch failing and a metadata
document whose oauth-uris extension carries only an authorize sub-extension,
the discoverer returns a configuration with an absent token endpoint instead
of failing, although neither source yielded both endpoints. -/
theorem C3_counterexample :
    getSmartConfiguration (Except.error ()) (Except.ok c3AuthorizeOnlyMetadata) =
      DiscoveryOutcome.config
        { authorization_endpoint := some "https://auth.example", token_endpoint := none } ∧
    getSmartConfiguration (Except.error ()) (Except.ok c3AuthorizeOnlyMetadata) ≠
      DiscoveryOutcome.notFound := by decide

/-- C3 amended: a successful well-known fetch is returned verbatim and the
metadata document is never consulted; on a failed well-known fetch the
configuration is assembled from the oauth-uris extension's authorize and
token sub-extension valueUris whenever that extension exists — even when one
or both sub-extensions are missing, so the corresponding endpoints come back
absent without an error; the could-not-find discovery error is thrown
exactly when the metadata document (whose own fetch failure propagates
as-is) has no oauth-uris extension. -/
theorem C3_amended (cfg : SmartConfig) (md md' : Except Unit MetadataDoc) (m : MetadataDoc) :
    (getSmartConfiguration (Except.ok cfg) md = DiscoveryOutcome.config cfg ∧
     getSmartConfiguration (Except.ok cfg) md = getSmartConfiguration (Except.ok cfg) md') ∧
    getSmartConfiguration (Except.error ()) (Except.error ()) =
      DiscoveryOutcome.metadataFetchError ∧
    (findOauthExt m = none →
      getSmartConfiguration (Except.error ()) (Except.ok m) = DiscoveryOutcome.notFound) ∧
    (∀ oe, findOauthExt m = some oe →
      getSmartConfiguration (Except.error ()) (Except.ok m) = DiscoveryOutcome.config
        { authorization_endpoint :=
            (oe.extension.find? fun e2 => e2.url = "authorize").bind fun e2 => e2.valueUri,
          token_endpoint :=
            (oe.extension.find? fun e2 => e2.url = "token").bind fun e2 => e2.valueUri }) := by
  refine ⟨⟨rfl, rfl⟩, rfl, ?_, ?_⟩
  · intro hnone
    simp [getSmartConfiguration, hnone]
  · intro oe hoe
    simp [getSmartConfiguration, hoe]

/-- C3 amended witness: the amended theorem applied to the concrete metadata
document with no oauth-uris extension. -/
theorem C3_amended_witness :
    getSmartConfiguration (Except.error ()) (Except.ok ({} : MetadataDoc)) =
      DiscoveryOutcome.notFound :=
  (C3_amended {} (Except.error ()) (Except.error ()) {}).2.2.1 (by decide)

/-- C5 counterexample: on the claim's two diagnostic strings the extractor
returns the targets truncated at the first period — Observation and
Condition — not the claimed two-element set of Observation.read and
Condition.read, because the capture group of the pattern cannot cross a
period. -/
theorem C5_counterexample :
    extractNotAuthorizedTargets
      (some ["Client not authorized for Observation.read.",
             "Client not authorized for Condition.read."]) = ["Observation", "Condition"] ∧
    "Observation.read" ∉
      extractNotAuthorizedTargets
        (some ["Client not authorized for Observation.read.",
               "Client not authorized for Condition.read."]) := by decide

/-- C5 amended: on the claim's two diagnostic strings the extractor returns
exactly the two-element set of the captures truncated at the first period,
Observation and Condition; and on any list of strings none of which matches
the pattern it returns the empty set. -/
theorem C5_amended (msgs : List String)
    (h : ∀ m ∈ msgs, regexNotAuthCapture m = none) :
    extractNotAuthorizedTargets
      (some ["Client not authorized for Observation.read.",
             "Client not authorized for Condition.read."]) = ["Observation", "Condition"] ∧
    extractNotAuthorizedTargets (some msgs) = [] := by
  refine ⟨by decide, ?_⟩
  simp only [extractNotAuthorizedTargets]
  exact extractTargets_fold_nil msgs h []

/-- C5 amended witness: the amended theorem applied to a concrete
non-matching message list. -/
theorem C5_amended_witness :
    extractNotAuthorizedTargets (some ["no authorization phrase here"]) = [] :=
  (C5_amended ["no authorization phrase here"] (by decide)).2

/-- C10: a callback arriving with no state parameter on a session that holds
no stored state (no launch was performed) passes the strict state comparison
— both sides are absent — raises no CSRF-mismatch error, and proceeds to the
token-exchange attempt with the session's absent token endpoint and absent
code verifier. -/
theorem C10_absent_state_passes (code : Option String) (desc : Option String) :
    callbackStep { code := code, state := none, error := none, error_description := desc }
      emptySession = CallbackResponse.tokenExchange none code none ∧
    callbackStep { code := code, state := none, error := none, error_description := desc }
      emptySession ≠ CallbackResponse.csrfMismatch := by
  exact ⟨rfl, by simp [callbackStep, emptySession, truthy]⟩

/-- C7: after the /demo handler seeds any session, each of the four
resource-fetch handlers answers with 200 and the fixed synthetic data for
its resource type — whatever the fetch environment would have returned — and
issues zero outbound network calls; the demo branch also performs no session
error-record write, so the seeded demo state persists for every subsequent
request. -/
theorem C7_demo_mode_no_network (s : SessionData) (cid : Option String)
    (cats : List String) (env : String → FetchOutcome)
    (upR : Except UpstreamError Resource) (upB upM : Except UpstreamError BundleData) :
    patientHandler (demoHandler s) upR = ⟨PatientResp.resourceJson demoPatient, 200, 0⟩ ∧
    obsHandler (demoHandler s) cid cats env = ⟨ObsResp.demo demoObservations, 200, none, 0⟩ ∧
    conditionsHandler (demoHandler s) upB = ⟨CondResp.demo demoConditions, 200, 0⟩ ∧
    medicationsHandler (demoHandler s) upM = ⟨MedsResp.demo demoMedications, 200, none, 0⟩ :=
  ⟨rfl, rfl, rfl, rfl⟩

/-- C9: a session holding no access token is answered 401 with the
not-authenticated body (the meaning of each notAuthenticated constructor) by
/api/session and by all four resource endpoints, with no network call and no
session write; and destroying the session via /logout makes the immediately
following /api/session call return that same 401. -/
theorem C9_no_token_all_401 (s s2 : SessionData) (cid : Option String)
    (cats : List String) (env : String → FetchOutcome)
    (upR : Except UpstreamError Resource) (upB upM : Except UpstreamError BundleData)
    (h : s.accessToken = none) :
    apiSessionHandler s = (SessionResp.notAuthenticated, 401) ∧
    patientHandler s upR = ⟨PatientResp.notAuthenticated, 401, 0⟩ ∧
    obsHandler s cid cats env = ⟨ObsResp.notAuthenticated, 401, none, 0⟩ ∧
    conditionsHandler s upB = ⟨CondResp.notAuthenticated, 401, 0⟩ ∧
    medicationsHandler s upM = ⟨MedsResp.notAuthenticated, 401, none, 0⟩ ∧
    apiSessionHandler (afterLogout s2) = (SessionResp.notAuthenticated, 401) := by
  simp [apiSessionHandler, patientHandler, obsHandler, conditionsHandler, medicationsHandler,
        afterLogout, emptySession, truthy, h]

/-- C9 witness: the theorem applied to the fresh empty session. -/
theorem C9_witness :
    apiSessionHandler emptySession = (SessionResp.notAuthenticated, 401) :=
  (C9_no_token_all_401 emptySession emptySession none []
    (fun _ => FetchOutcome.ok 200 [] {}) (Except.ok demoPatient)
    (Except.ok {}) (Except.ok {}) rfl).1

/-- C8: every entry of the redacted header map has a name accepted by the
allow branches (the exact allow list or the tracing-name patterns), and —
since every stored key is the lowercased input key and deny-listed names are
skipped before storage — the output never contains a cookie, set-cookie or
authorization header, whatever the letter-casing of the input key was. -/
theorem C8_header_redaction (headers : Option (List (String × String))) (k v : String)
    (h : (k, v) ∈ pickSafeResponseHeaders headers) :
    (headerAllowList.contains k = true ∨ traceHeaderName k = true) ∧
    k ≠ "cookie" ∧ k ≠ "set-cookie" ∧ k ≠ "authorization" := by
  have hsafe : safeHeaderKey k := by
    cases headers with
    | none => simp [pickSafeResponseHeaders] at h
    | some hs => exact pickHeaderFold_inv hs [] (by simp) (k, v) h
  refine ⟨hsafe.1, ?_, ?_, ?_⟩ <;> intro hk <;> rw [hk] at hsafe <;>
    exact absurd hsafe.2 (by decide)

/-- C8 witness: the theorem applied to a concrete header map containing a
mixed-case content-type entry. -/
theorem C8_witness :
    (headerAllowList.contains "content-type" = true ∨ traceHeaderName "content-type" = true) ∧
    "content-type" ≠ "cookie" ∧ "content-type" ≠ "set-cookie" ∧
    "content-type" ≠ "authorization" :=
  C8_header_redaction (some [("Content-Type", "application/fhir+json")]) "content-type"
    "application/fhir+json" (by decide)

/-- C6: the code challenge is a pure function of the verifier — equal
verifiers give equal challenges — and its value is the SHA-256 digest of the
UTF-8 verifier bytes rendered in the URL-safe base64 alphabet with no
padding: every output character is an alphabet member and in particular
never the padding character. -/
theorem C6_challenge_deterministic_digest (v : String) :
    generateCodeChallenge v = String.mk (base64urlEncode (sha256 (utf8Encode v))) ∧
    (∀ w, w = v → generateCodeChallenge w = generateCodeChallenge v) ∧
    (∀ c ∈ (generateCodeChallenge v).data, c ∈ b64Alphabet ∧ c ≠ '=') := by
  refine ⟨rfl, fun w hw => by rw [hw], ?_⟩
  intro c hc
  have hmem : c ∈ b64Alphabet := base64urlEncode_mem (sha256 (utf8Encode v)) c hc
  refine ⟨hmem, ?_⟩
  intro heq
  rw [heq] at hmem
  exact absurd hmem (by decide)

/-- C6 witness: the theorem applied to a concrete verifier, with the
membership hypothesis discharged on the first output character. -/
theorem C6_witness :
    generateCodeChallenge "test" = String.mk (base64urlEncode (sha256 (utf8Encode "test"))) ∧
    generateCodeChallenge "test" = generateCodeChallenge "test" ∧
    ('n' ∈ b64Alphabet ∧ 'n' ≠ '=') :=
  ⟨(C6_challenge_deterministic_digest "test").1,
   (C6_challenge_deterministic_digest "test").2.1 "test" rfl,
   (C6_challenge_deterministic_digest "test").2.2 'n' (by decide)⟩

/-- C2 counterexample: an authenticated, non-demo /api/patient request whose
upstream fetch fails with HTTP 403 is answered with status 403 and an error
body, not with an HTTP 200 bundle — the patient and conditions handlers
propagate upstream failures instead of converting them. -/
theorem C2_counterexample :
    (patientHandler { emptySession with accessToken := some "token123" }
      (Except.error { status := some 403 })).status = 403 ∧
    (patientHandler { emptySession with accessToken := some "token123" }
      (Except.error { status := some 403 })).status ≠ 200 ∧
    (conditionsHandler { emptySession with accessToken := some "token123" }
      (Except.error { status := some 403 })).status = 403 := by decide

/-- C2 amended: for authenticated non-demo requests, /api/medications
converts every upstream failure into an HTTP 200 empty bundle carrying an
advisory note, and /api/observations always answers 200 (per-category
failures are absorbed into the aggregate); /api/patient and /api/conditions
instead propagate the upstream HTTP status (or 500 when the rejection
carries none) with an error body. -/
theorem C2_amended (s : SessionData) (e : UpstreamError) (cid : Option String)
    (cats : List String) (env : String → FetchOutcome)
    (hs : truthy s.accessToken = true) (hd : s.demoMode = false) :
    (medicationsHandler s (Except.error e)).status = 200 ∧
    (medicationsHandler s (Except.error e)).resp =
      MedsResp.bundle [] 0 (some (medsFailNote e)) ∧
    (obsHandler s cid cats env).status = 200 ∧
    (patientHandler s (Except.error e)).status = orFalsyNat e.status 500 ∧
    (patientHandler s (Except.error e)).resp = PatientResp.failureJson ∧
    (conditionsHandler s (Except.error e)).status = orFalsyNat e.status 500 ∧
    (conditionsHandler s (Except.error e)).resp = CondResp.failureJson := by
  simp [medicationsHandler, obsHandler, patientHandler, conditionsHandler, hs, hd]

/-- C2 amended witness: the amended theorem applied to a concrete
authenticated session and a concrete 403 rejection. -/
theorem C2_amended_witness :
    (medicationsHandler { emptySession with accessToken := some "token123" }
      (Except.error { status := some 403 })).status = 200 :=
  (C2_amended { emptySession with accessToken := some "token123" }
    { status := some 403 } none [] (fun _ => FetchOutcome.ok 200 [] {})
    (by decide) (by decide)).1

/-- An OperationOutcome payload carrying a single diagnostic string, as the
Epic sandbox returns on a 403 denial. -/
def ooDenial (d : String) : Resource :=
  { resourceType := "OperationOutcome", issue := some [{ diagnostics := some d }] }

/-- C4: an authenticated non-demo Observation fetch over the categories
laboratory and vital-signs, where the laboratory query resolves with three
Observation entries and the vital-signs query rejects with HTTP 403 carrying
an operational-outcome diagnostic, is answered with HTTP 200 and a bundle
holding exactly the three laboratory entries with total 3 and no note, and
writes to the session's diagnostics record exactly one failed-category entry
naming vital-signs, status 403 and that diagnostic. -/
theorem C4_partial_failure (s : SessionData) (cid : Option String)
    (e1 e2 e3 : Entry) (d : String) (env : String → FetchOutcome)
    (hs : truthy s.accessToken = true) (hd : s.demoMode = false)
    (h1 : resTypeIs "Observation" e1 = true) (h2 : resTypeIs "Observation" e2 = true)
    (h3 : resTypeIs "Observation" e3 = true) (hdiag : d ≠ "")
    (hlab : env "laboratory" =
      FetchOutcome.ok 200 [] { entry := some [e1, e2, e3], total := some 3 })
    (hvs : env "vital-signs" =
      FetchOutcome.err { status := some 403, data := some (ooDenial d) }) :
    obsHandler s cid ["laboratory", "vital-signs"] env =
      ⟨ObsResp.bundle [e1, e2, e3] 3 none, 200,
        some { attemptedCategories := ["laboratory", "vital-signs"],
               categoryErrors := [{ category := "vital-signs", status := some 403,
                                    diagnostics := some [d] }] }, 2⟩ := by
  have hno1 := @resTypeIs_false_of_other "Observation" "OperationOutcome" e1 h1 (by decide)
  have hno2 := @resTypeIs_false_of_other "Observation" "OperationOutcome" e2 h2 (by decide)
  have hno3 := @resTypeIs_false_of_other "Observation" "OperationOutcome" e3 h3 (by decide)
  have hde : d.isEmpty = false := by
    rw [← Bool.not_eq_true, String.isEmpty_iff]
    exact hdiag
  simp [obsHandler, hs, hd, hlab, hvs, obsCategoryStep, obsNote, ooDenial,
        extractOperationOutcomeDiagnostics, truthyOpt, hde, h1, h2, h3,
        hno1, hno2, hno3, orFalsyNatOpt]

/-- C4 witness: the theorem applied to a concrete session, three concrete
laboratory observations and the concrete Epic denial diagnostic. -/
theorem C4_witness :
    obsHandler { emptySession with accessToken := some "token123" } none
      ["laboratory", "vital-signs"]
      (fun c =>
        if c = "laboratory" then
          FetchOutcome.ok 200 []
            { entry := some [
                { resource := some { resourceType := "Observation", id := some "o1" } },
                { resource := some { resourceType := "Observation", id := some "o2" } },
                { resource := some { resourceType := "Observation", id := some "o3" } }],
              total := some 3 }
        else
          FetchOutcome.err { status := some 403,
                             data := some (ooDenial "Client not authorized for Observation.Labs.") }) =
      ⟨ObsResp.bundle [
          { resource := some { resourceType := "Observation", id := some "o1" } },
          { resource := some { resourceType := "Observation", id := some "o2" } },
          { resource := some { resourceType := "Observation", id := some "o3" } }] 3 none,
        200,
        some { attemptedCategories := ["laboratory", "vital-signs"],
               categoryErrors := [{ category := "vital-signs", status := some 403,
                                    diagnostics := some ["Client not authorized for Observation.Labs."] }] },
        2⟩ :=
  C4_partial_failure { emptySession with accessToken := some "token123" } none
    { resource := some { resourceType := "Observation", id := some "o1" } }
    { resource := some { resourceType := "Observation", id := some "o2" } }
    { resource := some { resourceType := "Observation", id := some "o3" } }
    "Client not authorized for Observation.Labs." _
    (by decide) (by decide) (by decide) (by decide) (by decide) (by decide)
    (by decide) (by decide)
